import Mathlib

/-!
Verification of the sequence-generator application against its specification.

The numeric core of the application is embedded shallowly over `ℚ` (exact
arithmetic): sequence terms and parameters that the source handles as Python
floats are modelled as rational numbers, and the Python `int` term count is
modelled as `ℤ`.  Python built-ins used by the source (`int(x)` truncation,
`str(int)` rendering, and `%.6g` / `:.6g` numeric formatting) are modelled by
executable helper functions below.

The repository has two near-duplicate variants of the program: `src/app.py`
(arithmetic sequences only), embedded in namespace `App`, and the combined
arithmetic/geometric variant (`src/unnamed/part_000`), embedded in namespace
`Part000`.
-/

/-- Python `int(q)` on a (finite) number: truncation toward zero.  For a
rational `num/den` with positive denominator this is T-division of the
numerator by the denominator. -/
def pyIntTrunc (q : ℚ) : ℤ := Int.tdiv q.num q.den

/-- Number of decimal digits of a natural number (1 for 0). -/
def numDigits10 (n : ℕ) : ℕ := (Nat.toDigits 10 n).length

/-- Drop trailing `'0'` characters from a digit list. -/
def stripTrailZeros (ds : List Char) : List Char :=
  (ds.reverse.dropWhile (fun c => c == '0')).reverse

/-- Round-to-nearest, ties-to-even, of the exact quotient `A / B` of natural
numbers (`B ≠ 0`).  This is the rounding Python applies to decimal digit
strings when formatting. -/
def natHalfEvenDiv (A B : ℕ) : ℕ :=
  let t := A / B
  let r := A % B
  if 2 * r < B then t
  else if B < 2 * r then t + 1
  else if t % 2 = 0 then t else t + 1

/-- Fixed-point presentation of a 6-digit significand `ds` with decimal
exponent `e` (so the value is `0.ds * 10 ^ (e+1)`), with trailing zeros of
the fractional part removed, as `%.6g` produces for `-4 ≤ e < 6`. -/
def fixed6gRepr (ds : List Char) (e : ℤ) : String :=
  if 0 ≤ e then
    let ip := ds.take (e.toNat + 1)
    let fp := stripTrailZeros (ds.drop (e.toNat + 1))
    if fp = [] then ip.asString else ip.asString ++ "." ++ fp.asString
  else
    "0." ++ (List.replicate ((-e).toNat - 1) '0').asString ++
      (stripTrailZeros ds).asString

/-- Scientific presentation `d.ddddde±EE` of a 6-digit significand `ds` with
decimal exponent `e`, with trailing zeros of the mantissa removed and the
exponent printed with a sign and at least two digits, as `%.6g` produces
outside the fixed-point range. -/
def sci6gRepr (ds : List Char) (e : ℤ) : String :=
  let mant :=
    match ds with
    | [] => "0"
    | d :: rest =>
      let fp := stripTrailZeros rest
      if fp = [] then (List.asString [d])
      else (List.asString [d]) ++ "." ++ fp.asString
  let absE := e.natAbs
  let estr := if absE < 10 then "0" ++ Nat.repr absE else Nat.repr absE
  mant ++ "e" ++ (if 0 ≤ e then "+" else "-") ++ estr

/-- Python `f"{q:.6g}"` on a (finite) value, modelled exactly over `ℚ`:
round to 6 significant decimal digits (ties to even), then use fixed-point
notation when the decimal exponent is in `[-4, 6)` and scientific notation
otherwise, stripping trailing fractional zeros in both cases. -/
def pyFormat6g (q : ℚ) : String :=
  if q = 0 then "0"
  else
    let sign := if q < 0 then "-" else ""
    let n := q.num.natAbs
    let d := q.den
    let a := numDigits10 n - 1
    let b := numDigits10 d - 1
    let e : ℤ := if d * 10 ^ a ≤ n * 10 ^ b then (a : ℤ) - b else (a : ℤ) - b - 1
    let A := n * 10 ^ (5 - e).toNat
    let B := d * 10 ^ (e - 5).toNat
    let m0 := natHalfEvenDiv A B
    let m := if m0 = 10 ^ 6 then 10 ^ 5 else m0
    let e2 := if m0 = 10 ^ 6 then e + 1 else e
    let ds := Nat.toDigits 10 m
    sign ++ (if -4 ≤ e2 ∧ e2 < 6 then fixed6gRepr ds e2 else sci6gRepr ds e2)

namespace App

/-- `generate_arithmetic_sequence` from `src/app.py`: for `num_terms ≤ 0`
returns `[]`; otherwise the list of `first_term + i * common_difference`
for `i in range(num_terms)`. -/
def generate_arithmetic_sequence (first_term common_difference : ℚ)
    (num_terms : ℤ) : List ℚ :=
  if num_terms ≤ 0 then []
  else (List.range num_terms.toNat).map
    (fun (i : ℕ) => first_term + (i : ℚ) * common_difference)

/-- The per-term formatting of `format_sequence_display` in `src/app.py`:
`str(int(term))` when `term == int(term)`, else `f"{term:.6g}"`. -/
def format_term (term : ℚ) : String :=
  if term = ((pyIntTrunc term : ℤ) : ℚ) then toString (pyIntTrunc term)
  else pyFormat6g term

/-- `format_sequence_display` from `src/app.py`. -/
def format_sequence_display (sequence : List ℚ) : String :=
  if sequence = [] then "No terms to display"
  else String.intercalate ", " (sequence.map format_term)

/-- The term-count validation and generation step of `main` in `src/app.py`
(lines 100-119): `num_terms > 1000` and `num_terms <= 0` each short-circuit
with a user-visible error message before `generate_arithmetic_sequence` is
called; otherwise the sequence is generated. -/
def main_generation_step (first_term common_difference : ℚ)
    (num_terms : ℤ) : Except String (List ℚ) :=
  if num_terms > 1000 then
    Except.error "⚠️ Number of terms cannot exceed 1000 for performance reasons."
  else if num_terms ≤ 0 then
    Except.error "⚠️ Number of terms must be a positive integer."
  else
    Except.ok (generate_arithmetic_sequence first_term common_difference num_terms)

/-- The downloadable text artifact built by `main` in `src/app.py`
(lines 163-168). -/
def sequence_text (first_term common_difference : ℚ) (num_terms : ℤ)
    (formatted_sequence : String) : String :=
  "Arithmetic Sequence\n" ++
  "First Term: " ++ pyFormat6g first_term ++ "\n" ++
  "Common Difference: " ++ pyFormat6g common_difference ++ "\n" ++
  "Number of Terms: " ++ toString num_terms ++ "\n" ++
  "Sequence: " ++ formatted_sequence ++ "\n"

end App

/-- The sequence-type selector of the combined variant
(`st.radio` with options "Arithmetic" and "Geometric"). -/
inductive SequenceType
  | Arithmetic
  | Geometric
deriving DecidableEq

/-- The string label of a sequence type, as used in the UI and artifact. -/
def SequenceType.label : SequenceType → String
  | Arithmetic => "Arithmetic"
  | Geometric => "Geometric"

namespace Part000

/-- `generate_arithmetic_sequence` from `src/unnamed/part_000` (identical to
the `src/app.py` copy). -/
def generate_arithmetic_sequence (first_term common_difference : ℚ)
    (num_terms : ℤ) : List ℚ :=
  if num_terms ≤ 0 then []
  else (List.range num_terms.toNat).map
    (fun (i : ℕ) => first_term + (i : ℚ) * common_difference)

/-- `generate_geometric_sequence` from `src/unnamed/part_000`: for
`num_terms ≤ 0` returns `[]`; otherwise the list of
`first_term * common_ratio ** i` for `i in range(num_terms)`: each term is
an independent power, not an iterated product. -/
def generate_geometric_sequence (first_term common_ratio : ℚ)
    (num_terms : ℤ) : List ℚ :=
  if num_terms ≤ 0 then []
  else (List.range num_terms.toNat).map
    (fun (i : ℕ) => first_term * common_ratio ^ i)

/-- `calculate_arithmetic_sum` from `src/unnamed/part_000`:
`S_n = n/2 * (2a + (n-1)d)`, and `0` for `num_terms ≤ 0`. -/
def calculate_arithmetic_sum (first_term common_difference : ℚ)
    (num_terms : ℤ) : ℚ :=
  if num_terms ≤ 0 then 0
  else (num_terms : ℚ) / 2 *
    (2 * first_term + ((num_terms : ℚ) - 1) * common_difference)

/-- `calculate_geometric_sum` from `src/unnamed/part_000`: `0` for
`num_terms ≤ 0`; `n * a` when the ratio is `1`; otherwise
`a * (1 - r^n) / (1 - r)`. -/
def calculate_geometric_sum (first_term common_ratio : ℚ)
    (num_terms : ℤ) : ℚ :=
  if num_terms ≤ 0 then 0
  else if common_ratio = 1 then (num_terms : ℚ) * first_term
  else first_term * (1 - common_ratio ^ num_terms.toNat) / (1 - common_ratio)

/-- The per-term formatting of `format_sequence_display` in
`src/unnamed/part_000` (identical to the `src/app.py` copy). -/
def format_term (term : ℚ) : String :=
  if term = ((pyIntTrunc term : ℤ) : ℚ) then toString (pyIntTrunc term)
  else pyFormat6g term

/-- `format_sequence_display` from `src/unnamed/part_000` (identical to the
`src/app.py` copy). -/
def format_sequence_display (sequence : List ℚ) : String :=
  if sequence = [] then "No terms to display"
  else String.intercalate ", " (sequence.map format_term)

/-- The term-count validation and generation step of `main` in
`src/unnamed/part_000` (lines 171-195): `num_terms > 1000` and
`num_terms <= 0` each short-circuit with a user-visible error message before
any generator is called; otherwise the sequence and closed-form sum of the
selected kind are computed. -/
def main_generation_step (sequence_type : SequenceType)
    (first_term second_param : ℚ) (num_terms : ℤ) :
    Except String (List ℚ × ℚ) :=
  if num_terms > 1000 then
    Except.error "⚠️ Number of terms cannot exceed 1000 for performance reasons."
  else if num_terms ≤ 0 then
    Except.error "⚠️ Number of terms must be a positive integer."
  else
    match sequence_type with
    | SequenceType.Arithmetic =>
      Except.ok (generate_arithmetic_sequence first_term second_param num_terms,
        calculate_arithmetic_sum first_term second_param num_terms)
    | SequenceType.Geometric =>
      Except.ok (generate_geometric_sequence first_term second_param num_terms,
        calculate_geometric_sum first_term second_param num_terms)

/-- The step line ("Common Difference" or "Common Ratio") of the artifact
built by `main` in `src/unnamed/part_000` (lines 249-252). -/
def step_line (sequence_type : SequenceType) (second_param : ℚ) : String :=
  match sequence_type with
  | SequenceType.Arithmetic => "Common Difference: " ++ pyFormat6g second_param ++ "\n"
  | SequenceType.Geometric => "Common Ratio: " ++ pyFormat6g second_param ++ "\n"

/-- The downloadable text artifact built by `main` in `src/unnamed/part_000`
(lines 246-255). -/
def sequence_text (sequence_type : SequenceType)
    (first_term second_param : ℚ) (num_terms : ℤ)
    (formatted_sequence : String) (calculated_sum : ℚ) : String :=
  sequence_type.label ++ " Sequence\n" ++
  "First Term: " ++ pyFormat6g first_term ++ "\n" ++
  step_line sequence_type second_param ++
  "Number of Terms: " ++ toString num_terms ++ "\n" ++
  "Sequence: " ++ formatted_sequence ++ "\n" ++
  "Sum of Series: " ++ pyFormat6g calculated_sum ++ "\n"

end Part000

/-! ### Helper lemmas -/

theorem digitChar_of_ge_sixteen (m : ℕ) : Nat.digitChar (m + 16) = '*' := by
  unfold Nat.digitChar
  repeat rw [if_neg (show ¬_ = _ by omega)]

theorem digitChar_ne_dot (n : ℕ) : Nat.digitChar n ≠ '.' := by
  by_cases h : n < 16
  · interval_cases n <;> decide
  · obtain ⟨m, rfl⟩ : ∃ m, n = m + 16 := ⟨n - 16, by omega⟩
    rw [digitChar_of_ge_sixteen]
    decide

theorem toDigitsCore_ne_dot (fuel : ℕ) : ∀ (n : ℕ) (ds : List Char),
    '.' ∉ ds → '.' ∉ Nat.toDigitsCore 10 fuel n ds := by
  induction fuel with
  | zero => intro n ds h; simpa [Nat.toDigitsCore] using h
  | succ f ih =>
    intro n ds h
    have hd : '.' ∉ (Nat.digitChar (n % 10) :: ds) := by
      intro hc
      rcases List.mem_cons.mp hc with h1 | h1
      · exact digitChar_ne_dot _ h1.symm
      · exact h h1
    unfold Nat.toDigitsCore
    dsimp only
    split
    · exact hd
    · exact ih _ _ hd

theorem toString_int_ne_dot (i : ℤ) : '.' ∉ (toString i).toList := by
  cases i with
  | ofNat m =>
    show '.' ∉ Nat.toDigitsCore 10 (m + 1) m []
    exact toDigitsCore_ne_dot _ _ _ (by simp)
  | negSucc m =>
    show '.' ∉ ("-" ++ Nat.repr (m + 1)).toList
    intro hc
    rw [String.toList, String.data_append] at hc
    rcases List.mem_append.mp hc with h1 | h1
    · simp at h1
    · exact toDigitsCore_ne_dot _ _ _ (by simp) h1

theorem getD_range_map (n : ℕ) (f : ℕ → ℚ) (i : ℕ) (h : i < n) :
    ((List.range n).map f).getD i 0 = f i := by
  rw [List.getD_eq_getElem?_getD]
  simp [List.getElem?_map, List.getElem?_range, h]

theorem range_map_affine_sum (a d : ℚ) (m : ℕ) :
    ((List.range m).map (fun (i : ℕ) => a + (i : ℚ) * d)).sum
      = (m : ℚ) * a + d * ((m : ℚ) * ((m : ℚ) - 1) / 2) := by
  induction m with
  | zero => simp
  | succ k ih =>
    rw [List.range_succ, List.map_append, List.sum_append, ih]
    simp only [List.map_cons, List.map_nil, List.sum_cons, List.sum_nil]
    push_cast
    ring

theorem range_map_geom_sum_ne_one (a r : ℚ) (h : r ≠ 1) (m : ℕ) :
    ((List.range m).map (fun (i : ℕ) => a * r ^ i)).sum
      = a * (1 - r ^ m) / (1 - r) := by
  have h1 : 1 - r ≠ 0 := sub_ne_zero.mpr (Ne.symm h)
  induction m with
  | zero => simp
  | succ k ih =>
    rw [List.range_succ, List.map_append, List.sum_append, ih]
    simp only [List.map_cons, List.map_nil, List.sum_cons, List.sum_nil]
    field_simp
    ring

theorem range_map_geom_sum_one (a : ℚ) (m : ℕ) :
    ((List.range m).map (fun (i : ℕ) => a * (1 : ℚ) ^ i)).sum = (m : ℚ) * a := by
  induction m with
  | zero => simp
  | succ k ih =>
    rw [List.range_succ, List.map_append, List.sum_append, ih]
    simp only [List.map_cons, List.map_nil, List.sum_cons, List.sum_nil, one_pow]
    push_cast
    ring

theorem generate_arith_eq_map (a d : ℚ) {n : ℤ} (h : 0 < n) :
    Part000.generate_arithmetic_sequence a d n
      = (List.range n.toNat).map (fun (i : ℕ) => a + (i : ℚ) * d) := by
  unfold Part000.generate_arithmetic_sequence
  rw [if_neg (by omega)]

theorem generate_geom_eq_map (a r : ℚ) {n : ℤ} (h : 0 < n) :
    Part000.generate_geometric_sequence a r n
      = (List.range n.toNat).map (fun (i : ℕ) => a * r ^ i) := by
  unfold Part000.generate_geometric_sequence
  rw [if_neg (by omega)]

/-- Claim C1: for every integer term count `n > 0` and all finite first term `a`
and common difference `d`, `generate_arithmetic_sequence a d n` (in both
variants) returns a list of length exactly `n` whose `i`-th element
(0-indexed) equals `a + i * d` for every `i` in `[0, n)`. -/
theorem arithmetic_generation_correct (a d : ℚ) (n : ℤ) (h : 0 < n) :
    ((Part000.generate_arithmetic_sequence a d n).length : ℤ) = n ∧
    (∀ i : ℕ, (i : ℤ) < n →
      (Part000.generate_arithmetic_sequence a d n).getD i 0 = a + (i : ℚ) * d) ∧
    ((App.generate_arithmetic_sequence a d n).length : ℤ) = n ∧
    (∀ i : ℕ, (i : ℤ) < n →
      (App.generate_arithmetic_sequence a d n).getD i 0 = a + (i : ℚ) * d) := by
  have happ : App.generate_arithmetic_sequence a d n
      = Part000.generate_arithmetic_sequence a d n := rfl
  rw [happ, generate_arith_eq_map a d h]
  refine ⟨?_, fun i hi => getD_range_map _ _ _ (by omega), ?_,
    fun i hi => getD_range_map _ _ _ (by omega)⟩ <;>
  · simp only [List.length_map, List.length_range]
    omega

theorem arithmetic_generation_correct_witness :
    0 < (5 : ℤ) ∧ ((Part000.generate_arithmetic_sequence 2 3 5).length : ℤ) = 5 :=
  ⟨by decide, (arithmetic_generation_correct 2 3 5 (by decide)).1⟩

/-- Claim C2: for every integer term count `n > 0` and all finite first term `a`
and common ratio `r`, `generate_geometric_sequence a r n` returns a list of
length exactly `n` whose `i`-th element (0-indexed) equals `a * r ^ i` for
every `i` in `[0, n)` (each term is an independent power of `r`, as in the
source's `first_term * (common_ratio ** i)`). -/
theorem geometric_generation_correct (a r : ℚ) (n : ℤ) (h : 0 < n) :
    ((Part000.generate_geometric_sequence a r n).length : ℤ) = n ∧
    (∀ i : ℕ, (i : ℤ) < n →
      (Part000.generate_geometric_sequence a r n).getD i 0 = a * r ^ i) := by
  rw [generate_geom_eq_map a r h]
  refine ⟨?_, fun i hi => getD_range_map _ _ _ (by omega)⟩
  simp only [List.length_map, List.length_range]
  omega

theorem geometric_generation_correct_witness :
    0 < (4 : ℤ) ∧ ((Part000.generate_geometric_sequence 3 2 4).length : ℤ) = 4 :=
  ⟨by decide, (geometric_generation_correct 3 2 4 (by decide)).1⟩

/-- Claim C3: for every integer term count `n > 0`, the closed-form sums equal
the direct summation of the generated sequences, exactly over exact
arithmetic: `calculate_arithmetic_sum a d n` is the sum of
`generate_arithmetic_sequence a d n`, and `calculate_geometric_sum a r n` is
the sum of `generate_geometric_sequence a r n`. -/
theorem closed_form_sum_matches_direct (a s : ℚ) (n : ℤ) (h : 0 < n) :
    Part000.calculate_arithmetic_sum a s n
      = (Part000.generate_arithmetic_sequence a s n).sum ∧
    Part000.calculate_geometric_sum a s n
      = (Part000.generate_geometric_sequence a s n).sum := by
  have hn : ((n.toNat : ℕ) : ℚ) = (n : ℚ) := by
    exact_mod_cast congrArg (fun z : ℤ => (z : ℚ)) (Int.toNat_of_nonneg h.le)
  constructor
  · rw [generate_arith_eq_map a s h, range_map_affine_sum, hn]
    unfold Part000.calculate_arithmetic_sum
    rw [if_neg (by omega)]
    ring
  · rw [generate_geom_eq_map a s h]
    unfold Part000.calculate_geometric_sum
    rw [if_neg (by omega)]
    by_cases hr : s = 1
    · subst hr
      rw [if_pos rfl, range_map_geom_sum_one, hn]
    · rw [if_neg hr, range_map_geom_sum_ne_one a s hr]

theorem closed_form_sum_matches_direct_witness :
    Part000.calculate_arithmetic_sum 1 1 10
      = (Part000.generate_arithmetic_sequence 1 1 10).sum :=
  (closed_form_sum_matches_direct 1 1 10 (by decide)).1

/-- Claim C4: for every integer term count `n > 0`, `calculate_geometric_sum`
returns `n * first_term` when the common ratio equals 1, and
`first_term * (1 - ratio ^ n) / (1 - ratio)` otherwise; on the latter branch
the divisor `1 - ratio` is nonzero, so the function never divides by zero. -/
theorem geometric_sum_branch_safety (a r : ℚ) (n : ℤ) (h : 0 < n) :
    (r = 1 → Part000.calculate_geometric_sum a r n = (n : ℚ) * a) ∧
    (r ≠ 1 → 1 - r ≠ 0 ∧
      Part000.calculate_geometric_sum a r n
        = a * (1 - r ^ n.toNat) / (1 - r)) := by
  unfold Part000.calculate_geometric_sum
  rw [if_neg (by omega)]
  constructor
  · intro hr
    rw [if_pos hr]
  · intro hr
    refine ⟨sub_ne_zero.mpr (Ne.symm hr), ?_⟩
    rw [if_neg hr]

theorem geometric_sum_branch_safety_witness :
    1 - (2 : ℚ) ≠ 0 ∧ Part000.calculate_geometric_sum 3 2 4
      = 3 * (1 - 2 ^ (4 : ℤ).toNat) / (1 - 2) :=
  (geometric_sum_branch_safety 3 2 4 (by decide)).2 (by decide)

/-- Claim C5: for every integer term count `n ≤ 0` and all inputs, both
generators (in both variants) return the empty list, and both closed-form sum
functions return 0. -/
theorem nonpositive_term_count_behavior (a s : ℚ) (n : ℤ) (h : n ≤ 0) :
    App.generate_arithmetic_sequence a s n = [] ∧
    Part000.generate_arithmetic_sequence a s n = [] ∧
    Part000.generate_geometric_sequence a s n = [] ∧
    Part000.calculate_arithmetic_sum a s n = 0 ∧
    Part000.calculate_geometric_sum a s n = 0 := by
  refine ⟨?_, ?_, ?_, ?_, ?_⟩ <;>
    simp [App.generate_arithmetic_sequence, Part000.generate_arithmetic_sequence,
      Part000.generate_geometric_sequence, Part000.calculate_arithmetic_sum,
      Part000.calculate_geometric_sum, h]

theorem nonpositive_term_count_behavior_witness :
    App.generate_arithmetic_sequence 1 1 0 = [] :=
  (nonpositive_term_count_behavior 1 1 0 (by decide)).1

/-- Claim C6: `format_sequence_display` returns the fixed string
"No terms to display" for the empty list; for a non-empty list it joins the
per-term renderings with ", " in order, where a term equal to its integer
truncation is rendered as a plain integer string without a decimal point and
any other term is rendered in 6-significant-digit general format
(`pyFormat6g`); in particular `format [1, 2, 3] = "1, 2, 3"` (and, for the
general format, `format [1/3] = "0.333333"`). -/
theorem format_sequence_display_spec :
    Part000.format_sequence_display [] = "No terms to display" ∧
    Part000.format_sequence_display [1, 2, 3] = "1, 2, 3" ∧
    Part000.format_sequence_display [(1 / 3 : ℚ)] = "0.333333" ∧
    (∀ s : List ℚ, s ≠ [] →
      Part000.format_sequence_display s
        = String.intercalate ", " (s.map Part000.format_term)) ∧
    (∀ t : ℚ, t = ((pyIntTrunc t : ℤ) : ℚ) →
      Part000.format_term t = toString (pyIntTrunc t) ∧
        '.' ∉ (Part000.format_term t).toList) ∧
    (∀ t : ℚ, t ≠ ((pyIntTrunc t : ℤ) : ℚ) →
      Part000.format_term t = pyFormat6g t) := by
  refine ⟨rfl, by decide, ?_, ?_, ?_, ?_⟩
  · have h13 : (1 / 3 : ℚ) = ⟨1, 3, by decide, by decide⟩ := by
      rw [Rat.mk'_eq_divInt, Rat.divInt_eq_div]
      norm_num
    rw [h13]
    decide
  · intro s hs
    unfold Part000.format_sequence_display
    rw [if_neg hs]
  · intro t ht
    have hf : Part000.format_term t = toString (pyIntTrunc t) := by
      unfold Part000.format_term
      rw [if_pos ht]
    refine ⟨hf, ?_⟩
    rw [hf]
    exact toString_int_ne_dot (pyIntTrunc t)
  · intro t ht
    unfold Part000.format_term
    rw [if_neg ht]

theorem format_sequence_display_spec_witness :
    Part000.format_term 5 = toString (pyIntTrunc 5) ∧
      '.' ∉ (Part000.format_term 5).toList :=
  format_sequence_display_spec.2.2.2.2.1 5 (by decide)

/-- Claim C7: in the generation step of `main` (both variants), a term count
outside the range `1..1000` short-circuits the pipeline with a user-visible
error message before any sequence generator is called, while every in-range
term count (in particular `n = 1000`) proceeds to generation without error. -/
theorem term_count_validation (t : SequenceType) (a s : ℚ) (n : ℤ) :
    (n ≤ 0 ∨ 1000 < n →
      (∃ msg, Part000.main_generation_step t a s n = Except.error msg) ∧
      (∃ msg, App.main_generation_step a s n = Except.error msg)) ∧
    (0 < n → n ≤ 1000 →
      (Part000.main_generation_step t a s n).isOk = true ∧
      (App.main_generation_step a s n).isOk = true) := by
  constructor
  · intro h
    unfold Part000.main_generation_step App.main_generation_step
    by_cases h1 : n > 1000
    · rw [if_pos h1, if_pos h1]
      exact ⟨⟨_, rfl⟩, ⟨_, rfl⟩⟩
    · have h2 : n ≤ 0 := by omega
      rw [if_neg h1, if_pos h2, if_neg h1, if_pos h2]
      exact ⟨⟨_, rfl⟩, ⟨_, rfl⟩⟩
  · intro h1 h2
    unfold Part000.main_generation_step App.main_generation_step
    rw [if_neg (by omega), if_neg (by omega), if_neg (by omega), if_neg (by omega)]
    constructor
    · cases t <;> rfl
    · rfl

theorem term_count_validation_witness :
    (∃ msg, Part000.main_generation_step SequenceType.Geometric 1 2 1001
      = Except.error msg) ∧
    (Part000.main_generation_step SequenceType.Geometric 1 2 1000).isOk = true :=
  ⟨((term_count_validation SequenceType.Geometric 1 2 1001).1 (by decide)).1,
   ((term_count_validation SequenceType.Geometric 1 2 1000).2 (by decide) (by decide)).1⟩

/-- Claim C10 (implicit recurrence invariant, over exact arithmetic): for every
integer term count `n ≥ 2`, consecutive terms of the generated arithmetic
sequence differ by the common difference, and each next term of the generated
geometric sequence is the previous term times the common ratio. -/
theorem recurrence_invariant (a s : ℚ) (n : ℤ) (h : 2 ≤ n) :
    (∀ i : ℕ, (i : ℤ) + 1 < n →
      (Part000.generate_arithmetic_sequence a s n).getD (i + 1) 0
        - (Part000.generate_arithmetic_sequence a s n).getD i 0 = s) ∧
    (∀ i : ℕ, (i : ℤ) + 1 < n →
      (Part000.generate_geometric_sequence a s n).getD (i + 1) 0
        = (Part000.generate_geometric_sequence a s n).getD i 0 * s) := by
  have h0 : (0 : ℤ) < n := by omega
  constructor
  · intro i hi
    rw [generate_arith_eq_map a s h0, getD_range_map _ _ _ (by omega),
      getD_range_map _ _ _ (by omega)]
    push_cast
    ring
  · intro i hi
    rw [generate_geom_eq_map a s h0, getD_range_map _ _ _ (by omega),
      getD_range_map _ _ _ (by omega), pow_succ]
    ring

theorem recurrence_invariant_witness :
    (Part000.generate_arithmetic_sequence 1 2 3).getD (0 + 1) 0
      - (Part000.generate_arithmetic_sequence 1 2 3).getD 0 0 = 2 :=
  (recurrence_invariant 1 2 3 (by decide)).1 0 (by decide)

/-- Claim C9: the functions shared by the two near-duplicate variants are
extensionally equal: `generate_arithmetic_sequence` in `src/app.py` returns
the same list as the copy in `src/unnamed/part_000` on all inputs, and
likewise `format_sequence_display` returns the same string. -/
theorem duplicate_variant_functions_agree (a s : ℚ) (n : ℤ) (l : List ℚ) :
    App.generate_arithmetic_sequence a s n
      = Part000.generate_arithmetic_sequence a s n ∧
    App.format_sequence_display l = Part000.format_sequence_display l :=
  ⟨rfl, rfl⟩

/-- Claim C8 (amended): for every successful generation, the downloadable
plain-text artifact of the combined variant contains the sequence-type label,
the first term, the step label and value, the term count, the formatted
sequence, and the closed-form series sum; the artifact of the arithmetic-only
variant contains all of these except the series sum. -/
theorem artifact_contents (t : SequenceType) (a s cs : ℚ) (n : ℤ) (fmt : String) :
    ((t.label ++ " Sequence\n").toList
        <:+: (Part000.sequence_text t a s n fmt cs).toList) ∧
    (("First Term: " ++ pyFormat6g a).toList
        <:+: (Part000.sequence_text t a s n fmt cs).toList) ∧
    ((Part000.step_line t s).toList
        <:+: (Part000.sequence_text t a s n fmt cs).toList) ∧
    (("Number of Terms: " ++ toString n).toList
        <:+: (Part000.sequence_text t a s n fmt cs).toList) ∧
    (("Sequence: " ++ fmt).toList
        <:+: (Part000.sequence_text t a s n fmt cs).toList) ∧
    (("Sum of Series: " ++ pyFormat6g cs).toList
        <:+: (Part000.sequence_text t a s n fmt cs).toList) ∧
    ("Arithmetic Sequence\n".toList
        <:+: (App.sequence_text a s n fmt).toList) ∧
    (("First Term: " ++ pyFormat6g a).toList
        <:+: (App.sequence_text a s n fmt).toList) ∧
    (("Common Difference: " ++ pyFormat6g s).toList
        <:+: (App.sequence_text a s n fmt).toList) ∧
    (("Number of Terms: " ++ toString n).toList
        <:+: (App.sequence_text a s n fmt).toList) ∧
    (("Sequence: " ++ fmt).toList
        <:+: (App.sequence_text a s n fmt).toList) := by
  refine ⟨?_, ?_, ?_, ?_, ?_, ?_, ?_, ?_, ?_, ?_, ?_⟩
  · exact ⟨[], ("First Term: " ++ pyFormat6g a ++ "\n" ++ Part000.step_line t s ++
      "Number of Terms: " ++ toString n ++ "\n" ++ "Sequence: " ++ fmt ++ "\n" ++
      "Sum of Series: " ++ pyFormat6g cs ++ "\n").toList,
      by simp [Part000.sequence_text, String.toList, List.append_assoc]⟩
  · exact ⟨(t.label ++ " Sequence\n").toList, ("\n" ++ Part000.step_line t s ++
      "Number of Terms: " ++ toString n ++ "\n" ++ "Sequence: " ++ fmt ++ "\n" ++
      "Sum of Series: " ++ pyFormat6g cs ++ "\n").toList,
      by simp [Part000.sequence_text, String.toList, List.append_assoc]⟩
  · exact ⟨(t.label ++ " Sequence\n" ++ "First Term: " ++ pyFormat6g a ++ "\n").toList,
      ("Number of Terms: " ++ toString n ++ "\n" ++ "Sequence: " ++ fmt ++ "\n" ++
      "Sum of Series: " ++ pyFormat6g cs ++ "\n").toList,
      by simp [Part000.sequence_text, String.toList, List.append_assoc]⟩
  · exact ⟨(t.label ++ " Sequence\n" ++ "First Term: " ++ pyFormat6g a ++ "\n" ++
      Part000.step_line t s).toList,
      ("\n" ++ "Sequence: " ++ fmt ++ "\n" ++
      "Sum of Series: " ++ pyFormat6g cs ++ "\n").toList,
      by simp [Part000.sequence_text, String.toList, List.append_assoc]⟩
  · exact ⟨(t.label ++ " Sequence\n" ++ "First Term: " ++ pyFormat6g a ++ "\n" ++
      Part000.step_line t s ++ "Number of Terms: " ++ toString n ++ "\n").toList,
      ("\n" ++ "Sum of Series: " ++ pyFormat6g cs ++ "\n").toList,
      by simp [Part000.sequence_text, String.toList, List.append_assoc]⟩
  · exact ⟨(t.label ++ " Sequence\n" ++ "First Term: " ++ pyFormat6g a ++ "\n" ++
      Part000.step_line t s ++ "Number of Terms: " ++ toString n ++ "\n" ++
      "Sequence: " ++ fmt ++ "\n").toList,
      ("\n").toList,
      by simp [Part000.sequence_text, String.toList, List.append_assoc]⟩
  · exact ⟨[], ("First Term: " ++ pyFormat6g a ++ "\n" ++
      "Common Difference: " ++ pyFormat6g s ++ "\n" ++
      "Number of Terms: " ++ toString n ++ "\n" ++ "Sequence: " ++ fmt ++ "\n").toList,
      by simp [App.sequence_text, String.toList, List.append_assoc]⟩
  · exact ⟨("Arithmetic Sequence\n").toList, ("\n" ++
      "Common Difference: " ++ pyFormat6g s ++ "\n" ++
      "Number of Terms: " ++ toString n ++ "\n" ++ "Sequence: " ++ fmt ++ "\n").toList,
      by simp [App.sequence_text, String.toList, List.append_assoc]⟩
  · exact ⟨("Arithmetic Sequence\n" ++ "First Term: " ++ pyFormat6g a ++ "\n").toList,
      ("\n" ++ "Number of Terms: " ++ toString n ++ "\n" ++
      "Sequence: " ++ fmt ++ "\n").toList,
      by simp [App.sequence_text, String.toList, List.append_assoc]⟩
  · exact ⟨("Arithmetic Sequence\n" ++ "First Term: " ++ pyFormat6g a ++ "\n" ++
      "Common Difference: " ++ pyFormat6g s ++ "\n").toList,
      ("\n" ++ "Sequence: " ++ fmt ++ "\n").toList,
      by simp [App.sequence_text, String.toList, List.append_assoc]⟩
  · exact ⟨("Arithmetic Sequence\n" ++ "First Term: " ++ pyFormat6g a ++ "\n" ++
      "Common Difference: " ++ pyFormat6g s ++ "\n" ++
      "Number of Terms: " ++ toString n ++ "\n").toList,
      ("\n").toList,
      by simp [App.sequence_text, String.toList, List.append_assoc]⟩

set_option maxRecDepth 100000 in
/-- Claim C8 counterexample: the claim as stated fails for the arithmetic-only
variant: at `first_term = 1`, `common_difference = 1`, `num_terms = 10`, the
artifact built by `src/app.py` does not contain the string "Sum" at all, so
it does not contain the closed-form series sum. -/
theorem app_artifact_lacks_sum :
    ¬ ("Sum".toList <:+:
      (App.sequence_text 1 1 10
        (App.format_sequence_display
          (App.generate_arithmetic_sequence 1 1 10))).toList) := by
  have h10 : App.generate_arithmetic_sequence 1 1 10
      = [1, 2, 3, 4, 5, 6, 7, 8, 9, 10] := by
    unfold App.generate_arithmetic_sequence
    have hr : List.range (10 : ℤ).toNat = [0, 1, 2, 3, 4, 5, 6, 7, 8, 9] := rfl
    rw [if_neg (by omega), hr]
    norm_num
  rw [h10]
  decide
